import Mathlib

/-
Verification of the review-ingestion and report-normalization pipeline of the
code-review-assistant backend (src/backend/app/api.py, llm_analyzer.py,
database.py), as a shallow embedding in Lean 4.

Conventions of the embedding:
  - Python strings are Lean String; machine integers are Nat/Int; the
    comment-ratio float is modelled exactly over ℚ (Python round(x, 2) is
    modelled as round-half-to-even at two decimals over ℚ).
  - json.loads is modelled by a strict recursive-descent parser json_loads
    over a Json value type (null/bool/number/string/array/object); numbers
    are exact rationals (mantissa and decimal exponent), and the model omits
    the non-standard NaN/Infinity literals and astral-plane surrogate pairs,
    which no input in this development exercises.
  - The external LLM call is a parameter of type Except String String:
    error e models the client raising an exception with str(e) = e, ok t
    models a successful completion whose message content is t.
  - The sqlite database is a pure state: a list of saved rows plus the next
    AUTOINCREMENT identity; save_review appends a row and returns its id.
  - File upload, disk round-trip and utf-8 decoding with errors=ignore are
    outside the modelled boundary: an upload is a filename plus the decoded
    text content, and the on-disk byte size is the utf-8 size of that text.
-/

/-- A JSON value as produced by json.loads: objects keep their members in
encounter order (a duplicate key is appended; lookups take the last
occurrence, matching dict overwrite semantics). -/
inductive Json where
  | null
  | bool (b : Bool)
  | num (q : ℚ)
  | str (s : String)
  | arr (xs : List Json)
  | obj (kvs : List (String × Json))

/-- Last-occurrence association lookup, matching the value a Python dict
holds for a key after json.loads has overwritten earlier duplicates. -/
def lookupLast (kvs : List (String × Json)) (k : String) : Option Json :=
  match kvs with
  | [] => none
  | (k0, v0) :: rest =>
    match lookupLast rest k with
    | some v => some v
    | none => if k0 = k then some v0 else none

/-- Python dict.get(k, d) on a parsed JSON object; on a non-object the
attribute access would raise, which callers model separately. -/
def jget (a : Json) (k : String) (d : Json) : Json :=
  match a with
  | Json.obj kvs =>
    match lookupLast kvs k with
    | some v => v
    | none => d
  | _ => d

/-- Python len() on a JSON value: defined for strings, arrays and objects
(dict), a TypeError (none) otherwise. -/
def pyLen (v : Json) : Option Nat :=
  match v with
  | Json.str s => some s.length
  | Json.arr xs => some xs.length
  | Json.obj kvs => some kvs.length
  | _ => none

/-! ### A strict JSON parser modelling Python json.loads -/

/-- The four whitespace characters the json module skips between tokens. -/
def isJsonWs (c : Char) : Bool := c = ' ' || c = '\t' || c = '\n' || c = '\r'

/-- Drop leading JSON whitespace. -/
def skipWs : List Char → List Char
  | c :: cs => if isJsonWs c then skipWs cs else c :: cs
  | [] => []

def isDigitCh (c : Char) : Bool := '0' ≤ c && c ≤ '9'

/-- Longest digit run at the head of the input, and the rest. -/
def takeDigits : List Char → List Char × List Char
  | c :: cs =>
    if isDigitCh c then
      let (ds, r) := takeDigits cs
      (c :: ds, r)
    else ([], c :: cs)
  | [] => ([], [])

def digitsVal (ds : List Char) : Nat :=
  ds.foldl (fun acc c => acc * 10 + (c.toNat - '0'.toNat)) 0

def hexDigitVal (c : Char) : Option Nat :=
  if '0' ≤ c ∧ c ≤ '9' then some (c.toNat - '0'.toNat)
  else if 'a' ≤ c ∧ c ≤ 'f' then some (c.toNat - 'a'.toNat + 10)
  else if 'A' ≤ c ∧ c ≤ 'F' then some (c.toNat - 'A'.toNat + 10)
  else none

/-- Body of a JSON string literal after the opening quote, in strict mode:
plain characters below 0x20 are rejected, the standard single-character
escapes and a basic-plane \uXXXX escape are recognised. Returns the decoded
characters and the input after the closing quote. -/
def parseStringBody : Nat → List Char → Option (List Char × List Char)
  | 0, _ => none
  | _, [] => none
  | fuel + 1, c :: cs =>
    if c = '"' then some ([], cs)
    else if c = '\\' then
      match cs with
      | [] => none
      | e :: cs2 =>
        let decoded : Option (Char × List Char) :=
          if e = '"' then some ('"', cs2)
          else if e = '\\' then some ('\\', cs2)
          else if e = '/' then some ('/', cs2)
          else if e = 'b' then some ('\x08', cs2)
          else if e = 'f' then some ('\x0c', cs2)
          else if e = 'n' then some ('\n', cs2)
          else if e = 'r' then some ('\r', cs2)
          else if e = 't' then some ('\t', cs2)
          else if e = 'u' then
            match cs2 with
            | h1 :: h2 :: h3 :: h4 :: cs3 =>
              match hexDigitVal h1, hexDigitVal h2, hexDigitVal h3, hexDigitVal h4 with
              | some a, some b, some c3, some d =>
                let n := ((a * 16 + b) * 16 + c3) * 16 + d
                if n < 0xd800 ∨ 0xdfff < n then some (Char.ofNat n, cs3) else none
              | _, _, _, _ => none
            | _ => none
          else none
        match decoded with
        | some (ch, rest) =>
          match parseStringBody fuel rest with
          | some (tail, r) => some (ch :: tail, r)
          | none => none
        | none => none
    else if c.toNat < 0x20 then none
    else
      match parseStringBody fuel cs with
      | some (tail, r) => some (c :: tail, r)
      | none => none

/-- A JSON number per RFC 8259 (as the json module accepts it): optional
minus, an integer part without leading zeros, optional fraction, optional
exponent; the exact rational value is returned. -/
def parseNumber (cs : List Char) : Option (ℚ × List Char) :=
  let (neg, cs1) :=
    match cs with
    | '-' :: rest => (true, rest)
    | _ => (false, cs)
  let (intDs, cs2) := takeDigits cs1
  match intDs with
  | [] => none
  | d0 :: drest =>
    if d0 = '0' ∧ drest ≠ [] then none
    else
      let ipart : ℚ := (digitsVal intDs : ℚ)
      let fracRes : Option (ℚ × List Char) :=
        match cs2 with
        | '.' :: cs3 =>
          let (fds, cs4) := takeDigits cs3
          if fds = [] then none
          else some (ipart + (digitsVal fds : ℚ) / ((10 : ℚ) ^ fds.length), cs4)
        | _ => some (ipart, cs2)
      match fracRes with
      | none => none
      | some (mant, cs5) =>
        let expRes : Option (ℚ × List Char) :=
          match cs5 with
          | e :: cs6 =>
            if e = 'e' ∨ e = 'E' then
              let (esign, cs7) :=
                match cs6 with
                | '+' :: r => ((1 : Int), r)
                | '-' :: r => ((-1 : Int), r)
                | _ => ((1 : Int), cs6)
              let (eds, cs8) := takeDigits cs7
              if eds = [] then none
              else some (mant * (10 : ℚ) ^ (esign * (digitsVal eds : Int)), cs8)
            else some (mant, cs5)
          | [] => some (mant, cs5)
        match expRes with
        | none => none
        | some (v, cs9) => some ((if neg then -v else v), cs9)

mutual

/-- One JSON value at the head of the input (leading whitespace already
skipped), returning the value and the remaining input. -/
def parseValue : Nat → List Char → Option (Json × List Char)
  | 0, _ => none
  | fuel + 1, cs =>
    match cs with
    | [] => none
    | c :: rest =>
      if c = '\x7b' then
        match skipWs rest with
        | '\x7d' :: r => some (Json.obj [], r)
        | r => parseMembers fuel r []
      else if c = '[' then
        match skipWs rest with
        | ']' :: r => some (Json.arr [], r)
        | r => parseElements fuel r []
      else if c = '"' then
        match parseStringBody fuel rest with
        | some (body, r) => some (Json.str (String.mk body), r)
        | none => none
      else if c = 't' then
        match rest with
        | 'r' :: 'u' :: 'e' :: r => some (Json.bool true, r)
        | _ => none
      else if c = 'f' then
        match rest with
        | 'a' :: 'l' :: 's' :: 'e' :: r => some (Json.bool false, r)
        | _ => none
      else if c = 'n' then
        match rest with
        | 'u' :: 'l' :: 'l' :: r => some (Json.null, r)
        | _ => none
      else
        match parseNumber cs with
        | some (q, r) => some (Json.num q, r)
        | none => none

/-- Members of an object after the opening brace (first key expected at the
head, whitespace skipped); acc holds the members already read, in order. -/
def parseMembers : Nat → List Char → List (String × Json) → Option (Json × List Char)
  | 0, _, _ => none
  | fuel + 1, cs, acc =>
    match cs with
    | '"' :: rest =>
      match parseStringBody fuel rest with
      | none => none
      | some (keyChars, afterKey) =>
        match skipWs afterKey with
        | ':' :: afterColon =>
          match parseValue fuel (skipWs afterColon) with
          | none => none
          | some (v, afterVal) =>
            let acc2 := acc ++ [(String.mk keyChars, v)]
            match skipWs afterVal with
            | ',' :: afterComma => parseMembers fuel (skipWs afterComma) acc2
            | '\x7d' :: r => some (Json.obj acc2, r)
            | _ => none
        | _ => none
    | _ => none

/-- Elements of an array after the opening bracket (first element expected at
the head, whitespace skipped); acc holds the elements already read. -/
def parseElements : Nat → List Char → List Json → Option (Json × List Char)
  | 0, _, _ => none
  | fuel + 1, cs, acc =>
    match parseValue fuel cs with
    | none => none
    | some (v, afterVal) =>
      let acc2 := acc ++ [v]
      match skipWs afterVal with
      | ',' :: afterComma => parseElements fuel (skipWs afterComma) acc2
      | ']' :: r => some (Json.arr acc2, r)
      | _ => none

end

/-- Python json.loads(s): parse exactly one JSON document, allowing
surrounding whitespace and rejecting any trailing data; none models the
raised JSONDecodeError. Every recursion step either consumes an input
character or follows one bracket-opening step that did, so a fuel of twice
the length plus two dominates every well-formed document. -/
def json_loads (s : String) : Option Json :=
  match parseValue (2 * s.length + 2) (skipWs s.data) with
  | some (v, rest) =>
    match skipWs rest with
    | [] => some v
    | _ => none
  | none => none

/-! ### Python string helpers used by the pipeline -/

/-- The ASCII whitespace characters Python str.strip and str.split remove. -/
def isPyWs (c : Char) : Bool :=
  c = ' ' || c = '\t' || c = '\n' || c = '\r' || c = '\x0b' || c = '\x0c'

/-- Python str.strip(): remove leading and trailing whitespace. -/
def pyStrip (s : String) : String :=
  String.mk (((s.data.dropWhile isPyWs).reverse.dropWhile isPyWs).reverse)

/-- Split the characters at every separator (per the given test), keeping
empty pieces, with acc holding the current piece reversed. -/
def splitCharAux (p : Char → Bool) : List Char → List Char → List String
  | [], acc => [String.mk acc.reverse]
  | c :: rest, acc =>
    if p c then String.mk acc.reverse :: splitCharAux p rest []
    else splitCharAux p rest (c :: acc)

/-- Python s.split(sep) for a one-character separator: split at every
occurrence, keeping empty pieces (the empty string yields one empty
piece, and a trailing separator yields a trailing empty piece). -/
def pySplitChar (s : String) (p : Char → Bool) : List String :=
  splitCharAux p s.data []

/-- Python s.startswith applied to the single-character comment marker. -/
def startsWithHash (s : String) : Bool :=
  match s.data with
  | c :: _ => c = '#'
  | [] => false

/-- Python str.lower(), character by character. -/
def pyLower (s : String) : String := String.mk (s.data.map Char.toLower)

/-- The text after the last dot: filename.rsplit(".", 1)[1] when a dot
exists (callers check that first, as the source does). -/
def afterLastDot (s : String) : String :=
  String.mk ((s.data.reverse.takeWhile (fun c => c ≠ '.')).reverse)

/-- Python str.split() with no arguments: split on whitespace runs,
discarding empty pieces. -/
def pySplitWs (s : String) : List String :=
  (pySplitChar s isPyWs).filter (fun t => !t.data.isEmpty)

/-! ### api.py configuration and helpers -/

/-- The fixed allow-list of upload extensions (api.py ALLOWED_EXTENSIONS). -/
def ALLOWED_EXTENSIONS : List String :=
  ["py", "js", "java", "cpp", "c", "h", "hpp",
   "html", "css", "tsx", "jsx", "go", "rs",
   "php", "rb", "swift", "kt", "cs", "scala"]

/-- api.py allowed_file: the filename contains a dot and the lower-cased
text after the last dot is an allowed extension. -/
def allowed_file (filename : String) : Bool :=
  filename.data.contains '.' && ALLOWED_EXTENSIONS.contains (pyLower (afterLastDot filename))

/-- api.py ext_to_lang lookup table inside detect_language. -/
def ext_to_lang : List (String × String) :=
  [("py", "Python"), ("js", "JavaScript"), ("jsx", "React"),
   ("ts", "TypeScript"), ("tsx", "React TypeScript"),
   ("java", "Java"), ("cpp", "C++"), ("c", "C"),
   ("h", "C Header"), ("hpp", "C++ Header"),
   ("go", "Go"), ("rs", "Rust"), ("php", "PHP"),
   ("rb", "Ruby"), ("swift", "Swift"), ("kt", "Kotlin"),
   ("cs", "C#"), ("scala", "Scala"), ("html", "HTML"),
   ("css", "CSS")]

/-- api.py detect_language: map the lower-cased extension (empty when the
filename has no dot) through the table, defaulting to Unknown. -/
def detect_language (filename : String) : String :=
  let ext := if filename.data.contains '.' then pyLower (afterLastDot filename) else ""
  match ext_to_lang.lookup ext with
  | some lang => lang
  | none => "Unknown"

/-- Modelled from the external werkzeug library: secure_filename on its
posix path (drop non-ascii characters instead of NFKD transliteration,
map the path separator to a space, join whitespace-separated pieces with
underscores, keep only ascii alphanumerics, underscore, dot and dash, and
strip dots and underscores from both ends). -/
def secure_filename (filename : String) : String :=
  let ascii := filename.data.filter (fun c => c.toNat < 128)
  let noSep := ascii.map (fun c => if c = '/' then ' ' else c)
  let joined := String.intercalate "_" (pySplitWs (String.mk noSep))
  let kept := joined.data.filter (fun c => c.isAlphanum || c = '_' || c = '.' || c = '-')
  let isEdge := fun (c : Char) => c = '.' || c = '_'
  String.mk (((kept.dropWhile isEdge).reverse.dropWhile isEdge).reverse)

/-! ### Metrics Calculator (api.py calculate_code_metrics) -/

/-- The metrics dictionary calculate_code_metrics returns, with the
comment ratio as an exact rational. -/
structure CodeMetrics where
  total_lines : Nat
  code_lines : Nat
  blank_lines : Nat
  comment_lines : Nat
  comment_ratio : ℚ
deriving DecidableEq

/-- Round to the nearest integer, ties to the even integer, as Python round
does on an exactly representable value. -/
def roundHalfEven (q : ℚ) : ℤ :=
  let f := ⌊q⌋
  let r := q - (f : ℚ)
  if r < 1 / 2 then f
  else if 1 / 2 < r then f + 1
  else if f % 2 = 0 then f else f + 1

/-- Python round(x, 2) on an exact rational. -/
def pyRound2 (q : ℚ) : ℚ := (roundHalfEven (q * 100) : ℚ) / 100

/-- The code-line test of calculate_code_metrics: line.strip() is truthy
and does not start with the hash marker. -/
def isCodeLine (line : String) : Bool :=
  !(pyStrip line).data.isEmpty && !startsWithHash (pyStrip line)

/-- The blank-line test of calculate_code_metrics: line.strip() is falsy. -/
def isBlankLine (line : String) : Bool := (pyStrip line).data.isEmpty

/-- The comment-line test of calculate_code_metrics: line.strip() starts
with the hash marker. -/
def isCommentLine (line : String) : Bool := startsWithHash (pyStrip line)

/-- api.py calculate_code_metrics: split on newline, count code lines
(stripped non-empty and not comment-prefixed), blank lines (stripped
empty) and comment lines (stripped starts with the hash marker), and the
2-decimal comment ratio guarded on zero code lines. -/
def calculate_code_metrics (code_content : String) : CodeMetrics :=
  let lines := pySplitChar code_content (fun c => c = '\n')
  let total_lines := lines.length
  let code_lines := (lines.filter isCodeLine).length
  let blank_lines := (lines.filter isBlankLine).length
  let comment_lines := (lines.filter isCommentLine).length
  { total_lines := total_lines
    code_lines := code_lines
    blank_lines := blank_lines
    comment_lines := comment_lines
    comment_ratio :=
      pyRound2 (if 0 < code_lines then (comment_lines : ℚ) / (code_lines : ℚ) * 100 else 0) }

/-! ### LLM Response Validator/Normalizer (llm_analyzer.py CodeAnalyzer) -/

/-- The zero-score analysis dictionary analyze_code returns from its
except branch, with summary built from str(e). -/
def fallbackAnalysis (errMsg : String) : Json :=
  Json.obj
    [("overall_quality_score", Json.num 0),
     ("summary", Json.str ("Error during analysis: " ++ errMsg)),
     ("errors", Json.arr []),
     ("warnings", Json.arr []),
     ("suggestions", Json.arr []),
     ("strengths", Json.arr []),
     ("readability_score", Json.num 0),
     ("modularity_score", Json.num 0),
     ("best_practices_score", Json.num 0),
     ("security_concerns", Json.arr []),
     ("performance_notes", Json.arr [])]

/-- The span re.search finds for the pattern brace, any characters, brace
(greedy): from the first opening brace to the last closing brace, provided
the latter comes after the former; none when the pattern has no match. -/
def extractSpan (s : String) : Option String :=
  let cs := s.data
  match cs.findIdx? (fun c => c = '\x7b') with
  | none => none
  | some i =>
    match cs.reverse.findIdx? (fun c => c = '\x7d') with
    | none => none
    | some jr =>
      let j := cs.length - 1 - jr
      if i < j then some (String.mk ((cs.drop i).take (j - i + 1))) else none

/-- Stands for str(e) of the json.JSONDecodeError raised on the given
input; the exact message text is a library detail no caller inspects. -/
def jsonErrorStr (s : String) : String := "JSONDecodeError on " ++ s

/-- llm_analyzer.py CodeAnalyzer.analyze_code, with the LLM client call
abstracted to its outcome: on a raised exception the except branch returns
the fallback; on a completion, the brace span (when the regex matches) is
parsed, a parse error being caught by the same except branch, and only
when no span matches is the whole text parsed instead. -/
def analyze_code (llmOutcome : Except String String) : Json :=
  match llmOutcome with
  | Except.error e => fallbackAnalysis e
  | Except.ok result =>
    match extractSpan result with
    | some span =>
      match json_loads span with
      | some analysis => analysis
      | none => fallbackAnalysis (jsonErrorStr span)
    | none =>
      match json_loads result with
      | some analysis => analysis
      | none => fallbackAnalysis (jsonErrorStr result)

/-! ### Report Builder (llm_analyzer.py CodeAnalyzer.generate_report) -/

/-- The recomputed counters block of a report. -/
structure ReportMetrics where
  total_errors : Nat
  total_warnings : Nat
  total_suggestions : Nat
deriving DecidableEq

/-- The detailed_scores block of a report. -/
structure DetailedScores where
  readability : Json
  modularity : Json
  best_practices : Json

/-- The report dictionary generate_report builds. -/
structure Report where
  filename : String
  overall_score : Json
  summary : Json
  detailed_scores : DetailedScores
  errors : Json
  warnings : Json
  suggestions : Json
  strengths : Json
  security_concerns : Json
  performance_notes : Json
  metrics : ReportMetrics

/-- llm_analyzer.py CodeAnalyzer.generate_report: every field is read with
dict.get and an independent default, and the three counters are the len of
the corresponding list reads. none models the exception Python would raise
when analysis is not a dict (attribute error on get) or when a read field
has no len (a number, boolean or null under one of the three list keys). -/
def generate_report (analysis : Json) (filename : String) : Option Report :=
  match analysis with
  | Json.obj _ =>
    match pyLen (jget analysis "errors" (Json.arr [])),
          pyLen (jget analysis "warnings" (Json.arr [])),
          pyLen (jget analysis "suggestions" (Json.arr [])) with
    | some ne, some nw, some ns =>
      some
        { filename := filename
          overall_score := jget analysis "overall_quality_score" (Json.num 0)
          summary := jget analysis "summary" (Json.str "")
          detailed_scores :=
            { readability := jget analysis "readability_score" (Json.num 0)
              modularity := jget analysis "modularity_score" (Json.num 0)
              best_practices := jget analysis "best_practices_score" (Json.num 0) }
          errors := jget analysis "errors" (Json.arr [])
          warnings := jget analysis "warnings" (Json.arr [])
          suggestions := jget analysis "suggestions" (Json.arr [])
          strengths := jget analysis "strengths" (Json.arr [])
          security_concerns := jget analysis "security_concerns" (Json.arr [])
          performance_notes := jget analysis "performance_notes" (Json.arr [])
          metrics := { total_errors := ne, total_warnings := nw, total_suggestions := ns } }
    | _, _, _ => none
  | _ => none

/-! ### Persistence collaborator (database.py) and the ingestion endpoints -/

/-- A persisted report: the built report plus the fields the endpoint code
attaches to the dictionary before saving (code_metrics only on the
single-file path, language on both). -/
structure StoredReport where
  report : Report
  code_metrics : Option CodeMetrics
  language : String

/-- One row of the code_reviews table as save_review inserts it (the
timestamp column, assigned by sqlite, is outside the model). -/
structure SavedReview where
  id : Nat
  filename : String
  file_type : String
  file_size : Nat
  code_content : String
  review_report : StoredReport
  errors_found : Nat
  warnings_found : Nat
  suggestions_count : Nat
  quality_score : Json

/-- The database state: rows inserted so far and the next AUTOINCREMENT
identity. -/
structure DB where
  nextId : Nat
  rows : List SavedReview

/-- database.py save_review: insert one row, return the assigned id. -/
def save_review (db : DB) (filename file_type : String) (file_size : Nat)
    (code_content : String) (review_report : StoredReport)
    (errors_found warnings_found suggestions_count : Nat)
    (quality_score : Json) : Nat × DB :=
  (db.nextId,
   { nextId := db.nextId + 1
     rows := db.rows ++
       [{ id := db.nextId
          filename := filename
          file_type := file_type
          file_size := file_size
          code_content := code_content
          review_report := review_report
          errors_found := errors_found
          warnings_found := warnings_found
          suggestions_count := suggestions_count
          quality_score := quality_score }] })

/-- An uploaded file at the modelled boundary: the submitted filename and
the decoded text content. -/
structure UploadFile where
  filename : String
  content : String

/-- The outcome of the single-file endpoint, keeping what the JSON
responses carry: 400 rejections, the 500 catch-all of the try block, and
the success payload. -/
inductive ReviewResponse where
  | badRequest (msg : String)
  | serverError (msg : String)
  | ok (review_id : Nat) (report : StoredReport) (metrics : CodeMetrics) (language : String)

/-- The LLM client as the ingestion code sees it: from code content and
filename to either a raised exception (error) or the response text (ok). -/
def LlmClient : Type := String → String → Except String String

/-- api.py review_code on an uploaded file: reject empty or disallowed
filenames with 400; otherwise sanitize the name, compute size, type,
language and metrics, analyze, build the report, attach code_metrics and
language, persist, and return the identity. The file-type rsplit raises
when sanitization leaves no dot in the name, landing in the except branch
(500), as does a generate_report failure. -/
def review_code (llm : LlmClient) (db : DB) (file : UploadFile) : ReviewResponse × DB :=
  if file.filename = "" then (ReviewResponse.badRequest "No file selected", db)
  else if !allowed_file file.filename then (ReviewResponse.badRequest "File type not allowed", db)
  else
    let filename := secure_filename file.filename
    let code_content := file.content
    let file_size := code_content.utf8ByteSize
    if !filename.data.contains '.' then (ReviewResponse.serverError "IndexError", db)
    else
      let file_type := pyLower (afterLastDot filename)
      let language := detect_language filename
      let metrics := calculate_code_metrics code_content
      let analysis := analyze_code (llm code_content filename)
      match generate_report analysis filename with
      | none => (ReviewResponse.serverError "TypeError", db)
      | some report =>
        let stored : StoredReport :=
          { report := report, code_metrics := some metrics, language := language }
        let (review_id, db2) :=
          save_review db filename file_type file_size code_content stored
            report.metrics.total_errors report.metrics.total_warnings
            report.metrics.total_suggestions report.overall_score
        (ReviewResponse.ok review_id stored metrics language, db2)

/-- One success entry of the batch response. -/
structure BatchSuccess where
  filename : String
  review_id : Nat
  quality_score : Json

/-- The batch response body: the success entries, the per-file error
entries (filename and message), and the two counters. -/
structure BatchResult where
  results : List BatchSuccess
  errors : List (String × String)
  total : Nat
  failed : Nat

/-- The loop body of api.py batch_review for one file: a disallowed name
goes to the error list; otherwise the single-file steps run without
metrics computation, attaching only the language label, and any exception
inside the try (the rsplit on a dot-free sanitized name, or a report
build failure) becomes a per-file error entry. -/
def batch_process_file (llm : LlmClient) (db : DB) (file : UploadFile) :
    (Except (String × String) BatchSuccess) × DB :=
  if allowed_file file.filename then
    let filename := secure_filename file.filename
    let code_content := file.content
    let file_size := code_content.utf8ByteSize
    if !filename.data.contains '.' then (Except.error (file.filename, "IndexError"), db)
    else
      let file_type := pyLower (afterLastDot filename)
      let language := detect_language filename
      let analysis := analyze_code (llm code_content filename)
      match generate_report analysis filename with
      | none => (Except.error (file.filename, "TypeError"), db)
      | some report =>
        let stored : StoredReport :=
          { report := report, code_metrics := none, language := language }
        let (review_id, db2) :=
          save_review db filename file_type file_size code_content stored
            report.metrics.total_errors report.metrics.total_warnings
            report.metrics.total_suggestions report.overall_score
        (Except.ok { filename := filename, review_id := review_id,
                     quality_score := report.overall_score }, db2)
  else (Except.error (file.filename, "File type not allowed"), db)

/-- The batch loop: process the files in order, collecting successes and
per-file errors while threading the database state. -/
def batch_loop (llm : LlmClient) (db : DB) : List UploadFile →
    (List BatchSuccess × List (String × String)) × DB
  | [] => (([], []), db)
  | file :: rest =>
    let step := batch_process_file llm db file
    let recur := batch_loop llm step.2 rest
    match step.1 with
    | Except.ok s => ((s :: recur.1.1, recur.1.2), recur.2)
    | Except.error e => ((recur.1.1, e :: recur.1.2), recur.2)

/-- api.py batch_review: run the loop over all uploaded files and return
the 200 response with successes, failures and their counts. -/
def batch_review (llm : LlmClient) (db : DB) (files : List UploadFile) : BatchResult × DB :=
  let outcome := batch_loop llm db files
  ({ results := outcome.1.1, errors := outcome.1.2,
     total := outcome.1.1.length, failed := outcome.1.2.length }, outcome.2)

/-! ### Shared fixtures and helper facts -/

/-- A client stub whose call always raises a network error. -/
def llmDown : LlmClient := fun _ _ => Except.error "Connection refused"

/-- A fresh database (sqlite AUTOINCREMENT identities start at 1). -/
def db0 : DB := { nextId := 1, rows := [] }

/-- A small allowed upload. -/
def file0 : UploadFile := { filename := "test.py", content := "print(1)" }

/-- The sample snippet from the testable-properties scenario. -/
def sampleSnippet : String := "def hello():\n    print(\"hi\")\n\n# comment\n"

/-- The report generate_report builds from the fallback analysis. -/
def degradedReport (errMsg filename : String) : Report :=
  { filename := filename
    overall_score := Json.num 0
    summary := Json.str ("Error during analysis: " ++ errMsg)
    detailed_scores :=
      { readability := Json.num 0, modularity := Json.num 0, best_practices := Json.num 0 }
    errors := Json.arr []
    warnings := Json.arr []
    suggestions := Json.arr []
    strengths := Json.arr []
    security_concerns := Json.arr []
    performance_notes := Json.arr []
    metrics := { total_errors := 0, total_warnings := 0, total_suggestions := 0 } }

/-- Building a report from the fallback analysis yields the degraded
report. -/
theorem generate_report_fallback (errMsg filename : String) :
    generate_report (fallbackAnalysis errMsg) filename = some (degradedReport errMsg filename) := rfl

/-- The row a successful ingestion of the given file inserts, parametrized
by the built report and by whether code metrics were attached to the
stored report (the single-file path attaches them; the batch path does
not). -/
def ingestRow (db : DB) (file : UploadFile) (rep : Report) (cm : Option CodeMetrics) : SavedReview :=
  { id := db.nextId
    filename := secure_filename file.filename
    file_type := pyLower (afterLastDot (secure_filename file.filename))
    file_size := file.content.utf8ByteSize
    code_content := file.content
    review_report :=
      { report := rep, code_metrics := cm,
        language := detect_language (secure_filename file.filename) }
    errors_found := rep.metrics.total_errors
    warnings_found := rep.metrics.total_warnings
    suggestions_count := rep.metrics.total_suggestions
    quality_score := rep.overall_score }

/-- The single-file endpoint on an accepted file whose report build
succeeds: it returns the fresh identity with the metrics-carrying stored
report and appends exactly the corresponding row. -/
theorem review_code_success (llm : LlmClient) (db : DB) (file : UploadFile) (rep : Report)
    (hAllowed : allowed_file file.filename = true)
    (hDot : (secure_filename file.filename).data.contains '.' = true)
    (hRep : generate_report (analyze_code (llm file.content (secure_filename file.filename)))
      (secure_filename file.filename) = some rep) :
    review_code llm db file =
      (ReviewResponse.ok db.nextId
        { report := rep, code_metrics := some (calculate_code_metrics file.content),
          language := detect_language (secure_filename file.filename) }
        (calculate_code_metrics file.content) (detect_language (secure_filename file.filename)),
       { nextId := db.nextId + 1,
         rows := db.rows ++ [ingestRow db file rep (some (calculate_code_metrics file.content))] }) := by
  have hne : ¬ file.filename = "" := by
    intro h
    rw [h] at hAllowed
    exact absurd hAllowed (by decide)
  simp only [review_code, if_neg hne, hAllowed, Bool.not_true, Bool.false_eq_true, if_false,
    hDot, hRep, ingestRow, save_review]

/-- The batch loop body on an accepted file whose report build succeeds:
it returns a success entry and appends the corresponding row, with no
code metrics in the stored report. -/
theorem batch_file_success (llm : LlmClient) (db : DB) (file : UploadFile) (rep : Report)
    (hAllowed : allowed_file file.filename = true)
    (hDot : (secure_filename file.filename).data.contains '.' = true)
    (hRep : generate_report (analyze_code (llm file.content (secure_filename file.filename)))
      (secure_filename file.filename) = some rep) :
    batch_process_file llm db file =
      (Except.ok { filename := secure_filename file.filename, review_id := db.nextId,
                   quality_score := rep.overall_score },
       { nextId := db.nextId + 1, rows := db.rows ++ [ingestRow db file rep none] }) := by
  simp only [batch_process_file, hAllowed, if_true, hDot, hRep, Bool.not_true,
    Bool.false_eq_true, if_false, ingestRow, save_review]

/-- Every line falls in exactly one of the three buckets of
calculate_code_metrics: blank, comment, or code. -/
theorem line_bucket_exclusive (line : String) :
    (isBlankLine line = true ∧ isCommentLine line = false ∧ isCodeLine line = false) ∨
    (isBlankLine line = false ∧ isCommentLine line = true ∧ isCodeLine line = false) ∨
    (isBlankLine line = false ∧ isCommentLine line = false ∧ isCodeLine line = true) := by
  unfold isBlankLine isCommentLine isCodeLine
  cases hb : (pyStrip line).data.isEmpty with
  | true =>
    have hdata : (pyStrip line).data = [] := by
      cases h : (pyStrip line).data with
      | nil => rfl
      | cons c t => rw [h] at hb; simp [List.isEmpty] at hb
    have hc : startsWithHash (pyStrip line) = false := by
      unfold startsWithHash
      rw [hdata]
    simp [hb, hc]
  | false =>
    cases hc : startsWithHash (pyStrip line) <;> simp [hb, hc]

/-- Length of a list as the sum of the lengths of its three filters, for
predicates of which each element satisfies exactly one. -/
theorem length_filter_three {α : Type} (p q r : α → Bool)
    (h : ∀ a, (p a = true ∧ q a = false ∧ r a = false) ∨
      (p a = false ∧ q a = true ∧ r a = false) ∨
      (p a = false ∧ q a = false ∧ r a = true)) :
    ∀ l : List α, l.length = (l.filter p).length + (l.filter q).length + (l.filter r).length := by
  intro l
  induction l with
  | nil => simp
  | cons a t ih =>
    rcases h a with ⟨h1, h2, h3⟩ | ⟨h1, h2, h3⟩ | ⟨h1, h2, h3⟩ <;>
      simp [List.filter_cons, h1, h2, h3, ih] <;> omega

/-- The projection identity for the ratio field of the metrics. -/
theorem metrics_ratio_eq (s : String) :
    (calculate_code_metrics s).comment_ratio =
      pyRound2 (if 0 < (calculate_code_metrics s).code_lines then
        ((calculate_code_metrics s).comment_lines : ℚ) /
          ((calculate_code_metrics s).code_lines : ℚ) * 100 else 0) := rfl

/-- C4: each line produced by splitting the input on newlines is counted
in exactly one of the three buckets (code, blank, comment), so the three
natural-number counts sum to the total line count. -/
theorem metrics_line_partition (text : String) :
    (∀ line ∈ pySplitChar text (fun c => c = '\n'),
      (isBlankLine line = true ∧ isCommentLine line = false ∧ isCodeLine line = false) ∨
      (isBlankLine line = false ∧ isCommentLine line = true ∧ isCodeLine line = false) ∨
      (isBlankLine line = false ∧ isCommentLine line = false ∧ isCodeLine line = true)) ∧
    (calculate_code_metrics text).total_lines =
      (calculate_code_metrics text).code_lines + (calculate_code_metrics text).blank_lines +
        (calculate_code_metrics text).comment_lines := by
  refine ⟨fun line _ => line_bucket_exclusive line, ?_⟩
  show (pySplitChar text (fun c => c = '\n')).length = _
  exact length_filter_three isCodeLine isBlankLine isCommentLine
    (fun a => by rcases line_bucket_exclusive a with ⟨h1, h2, h3⟩ | ⟨h1, h2, h3⟩ | ⟨h1, h2, h3⟩ <;>
      simp [h1, h2, h3])
    (pySplitChar text (fun c => c = '\n'))

/-- C3 counterexample: on the scenario input the metrics are not the
claimed total_lines=4, blank_lines=1 (the split keeps the empty piece
after the trailing newline, so there are 5 lines, 2 of them blank). -/
theorem metrics_sample_scenario_cex :
    ¬ ((calculate_code_metrics sampleSnippet).total_lines = 4 ∧
       (calculate_code_metrics sampleSnippet).blank_lines = 1 ∧
       (calculate_code_metrics sampleSnippet).comment_lines = 1 ∧
       (calculate_code_metrics sampleSnippet).code_lines = 2 ∧
       (calculate_code_metrics sampleSnippet).comment_ratio = 50) :=
  fun h => absurd h.1 (by decide)

/-- C3 amended: on the scenario input compute_metrics returns
total_lines=5, blank_lines=2, comment_lines=1, code_lines=2 and
comment_ratio=50.0 (the trailing newline yields a fifth, blank, line). -/
theorem metrics_sample_scenario :
    (calculate_code_metrics sampleSnippet).total_lines = 5 ∧
    (calculate_code_metrics sampleSnippet).blank_lines = 2 ∧
    (calculate_code_metrics sampleSnippet).comment_lines = 1 ∧
    (calculate_code_metrics sampleSnippet).code_lines = 2 ∧
    (calculate_code_metrics sampleSnippet).comment_ratio = 50 := by
  refine ⟨by decide, by decide, by decide, by decide, ?_⟩
  rw [metrics_ratio_eq,
    show (calculate_code_metrics sampleSnippet).code_lines = 2 from by decide,
    show (calculate_code_metrics sampleSnippet).comment_lines = 1 from by decide]
  norm_num [pyRound2, roundHalfEven]

/-- C9 counterexample: on the empty string the counts are not all zero
(the split of the empty string yields one empty line, so total_lines and
blank_lines are 1). -/
theorem metrics_empty_cex :
    ¬ ((calculate_code_metrics "").total_lines = 0 ∧
       (calculate_code_metrics "").code_lines = 0 ∧
       (calculate_code_metrics "").blank_lines = 0 ∧
       (calculate_code_metrics "").comment_lines = 0 ∧
       (calculate_code_metrics "").comment_ratio = 0) :=
  fun h => absurd h.1 (by decide)

/-- C9 amended: compute_metrics is total; the division is guarded, so the
ratio is 0 whenever code_lines = 0 (regardless of comment_lines) and
equals round(comment_lines / code_lines * 100, 2) when code_lines > 0;
on the empty string total_lines and blank_lines are 1, the other counts
and the ratio 0. -/
theorem metrics_ratio_guard (s : String) :
    ((calculate_code_metrics s).code_lines = 0 → (calculate_code_metrics s).comment_ratio = 0) ∧
    (0 < (calculate_code_metrics s).code_lines →
      (calculate_code_metrics s).comment_ratio =
        pyRound2 (((calculate_code_metrics s).comment_lines : ℚ) /
          ((calculate_code_metrics s).code_lines : ℚ) * 100)) ∧
    (calculate_code_metrics "").total_lines = 1 ∧
    (calculate_code_metrics "").blank_lines = 1 ∧
    (calculate_code_metrics "").code_lines = 0 ∧
    (calculate_code_metrics "").comment_lines = 0 ∧
    (calculate_code_metrics "").comment_ratio = 0 := by
  have hguard : ∀ t : String, (calculate_code_metrics t).code_lines = 0 →
      (calculate_code_metrics t).comment_ratio = 0 := by
    intro t h
    rw [metrics_ratio_eq, h]
    norm_num [pyRound2, roundHalfEven]
  refine ⟨hguard s, ?_, by decide, by decide, by decide, by decide, hguard "" (by decide)⟩
  intro h
  rw [metrics_ratio_eq, if_pos h]

/-- C9 witness: a comment-only input has ratio 0 despite a nonzero
comment count, and a one-code-one-comment input has ratio 100. -/
theorem metrics_ratio_guard_witness :
    (calculate_code_metrics "# only a comment").comment_lines = 1 ∧
    (calculate_code_metrics "# only a comment").comment_ratio = 0 ∧
    (calculate_code_metrics "x = 1\n# c").comment_ratio = 100 := by
  refine ⟨by decide, (metrics_ratio_guard "# only a comment").1 (by decide), ?_⟩
  have h := (metrics_ratio_guard "x = 1\n# c").2.1 (by decide)
  rw [show (calculate_code_metrics "x = 1\n# c").comment_lines = 1 from by decide,
    show (calculate_code_metrics "x = 1\n# c").code_lines = 1 from by decide] at h
  rw [h]
  norm_num [pyRound2, roundHalfEven]

/-- takeWhile runs through a prefix whose elements all pass and stops at
the first failing element. -/
theorem takeWhile_append_stop {α : Type} (p : α → Bool) (l1 l2 : List α)
    (h : ∀ a ∈ l1, p a = true) (a0 : α) (h0 : p a0 = false) :
    (l1 ++ a0 :: l2).takeWhile p = l1 := by
  induction l1 with
  | nil => simp [List.takeWhile_cons, h0]
  | cons x t ih =>
    have hx := h x (by simp)
    simp [List.takeWhile_cons, hx, ih (fun a ha => h a (by simp [ha]))]

/-- On a filename of the shape stem.ext with a dot-free ext, the text
after the last dot is exactly ext. -/
theorem afterLastDot_append (stem ext : String) (hnd : ext.data.contains '.' = false) :
    afterLastDot (stem ++ "." ++ ext) = ext := by
  have hdata : (stem ++ "." ++ ext).data = stem.data ++ '.' :: ext.data := by
    rw [String.data_append, String.data_append, show (".").data = ['.'] from by decide,
      List.append_assoc]
    rfl
  have hmem : ∀ a ∈ ext.data.reverse, (fun c => decide ¬(c = '.')) a = true := by
    intro a ha
    simp only [List.mem_reverse] at ha
    simp only [decide_eq_true_eq]
    intro hdot
    rw [hdot] at ha
    have : ext.data.contains '.' = true := List.elem_eq_true_of_mem ha
    rw [this] at hnd
    cases hnd
  unfold afterLastDot
  rw [hdata]
  rw [show (stem.data ++ '.' :: ext.data).reverse = ext.data.reverse ++ '.' :: stem.data.reverse by
    simp]
  rw [takeWhile_append_stop _ _ _ hmem '.' (by simp)]
  rw [List.reverse_reverse]

/-- C10: a filename without a dot is always rejected by the extension
check (and both endpoints turn that into the unsupported-file-type
rejection), while a filename of the shape stem.ext whose extension
lower-cases into the allow-list is accepted, so the check is
case-insensitive on the extension. -/
theorem allowed_file_extension_cases :
    (∀ filename : String, filename.data.contains '.' = false → allowed_file filename = false) ∧
    (∀ stem ext : String, ext.data.contains '.' = false →
      ALLOWED_EXTENSIONS.contains (pyLower ext) = true →
      allowed_file (stem ++ "." ++ ext) = true) ∧
    (∀ (llm : LlmClient) (db : DB) (file : UploadFile), file.filename ≠ "" →
      file.filename.data.contains '.' = false →
      review_code llm db file = (ReviewResponse.badRequest "File type not allowed", db)) ∧
    (∀ (llm : LlmClient) (db : DB) (file : UploadFile),
      file.filename.data.contains '.' = false →
      batch_process_file llm db file = (Except.error (file.filename, "File type not allowed"), db)) := by
  have h1 : ∀ filename : String, filename.data.contains '.' = false →
      allowed_file filename = false := by
    intro filename h
    unfold allowed_file
    rw [h]
    rfl
  refine ⟨h1, ?_, ?_, ?_⟩
  · intro stem ext hnd hmem
    have hdata : (stem ++ "." ++ ext).data = stem.data ++ '.' :: ext.data := by
      rw [String.data_append, String.data_append, show (".").data = ['.'] from by decide,
        List.append_assoc]
      rfl
    have hdot : (stem ++ "." ++ ext).data.contains '.' = true := by
      rw [hdata]
      exact List.elem_eq_true_of_mem (by simp)
    unfold allowed_file
    rw [hdot, afterLastDot_append stem ext hnd, hmem]
    rfl
  · intro llm db file hne hnd
    unfold review_code
    rw [if_neg hne, h1 file.filename hnd]
    rfl
  · intro llm db file hnd
    unfold batch_process_file
    rw [h1 file.filename hnd]
    rfl

/-- C10 witness: main.PY (upper-case extension) is accepted, README (no
dot) is rejected by the check and by both endpoints. -/
theorem allowed_file_extension_cases_witness :
    allowed_file ("main" ++ "." ++ "PY") = true ∧
    allowed_file "README" = false ∧
    review_code llmDown db0 ⟨"README", "print(1)"⟩ =
      (ReviewResponse.badRequest "File type not allowed", db0) ∧
    batch_process_file llmDown db0 ⟨"README", "print(1)"⟩ =
      (Except.error ("README", "File type not allowed"), db0) :=
  ⟨allowed_file_extension_cases.2.1 "main" "PY" (by decide) (by decide),
   allowed_file_extension_cases.1 "README" (by decide),
   allowed_file_extension_cases.2.2.1 llmDown db0 ⟨"README", "print(1)"⟩ (by decide) (by decide),
   allowed_file_extension_cases.2.2.2 llmDown db0 ⟨"README", "print(1)"⟩ (by decide)⟩


/-- C5: whenever the report builder succeeds, each of the three counters in
its metrics block equals the len of the corresponding field of the same
report — the counters are recomputed from the lists, never read from the
LLM output (the schema never asks the model for counts). -/
theorem report_counters_recomputed (analysis : Json) (filename : String) (rep : Report)
    (h : generate_report analysis filename = some rep) :
    pyLen rep.errors = some rep.metrics.total_errors ∧
    pyLen rep.warnings = some rep.metrics.total_warnings ∧
    pyLen rep.suggestions = some rep.metrics.total_suggestions := by
  unfold generate_report at h
  cases analysis <;> try exact Option.noConfusion h
  case obj kvs =>
  rcases h1 : pyLen (jget (Json.obj kvs) "errors" (Json.arr [])) with _ | ne <;> rw [h1] at h <;>
    try exact Option.noConfusion h
  rcases h2 : pyLen (jget (Json.obj kvs) "warnings" (Json.arr [])) with _ | nw <;> rw [h2] at h <;>
    try exact Option.noConfusion h
  rcases h3 : pyLen (jget (Json.obj kvs) "suggestions" (Json.arr [])) with _ | ns <;> rw [h3] at h <;>
    try exact Option.noConfusion h
  injection h with h4
  subst h4
  exact ⟨h1, h2, h3⟩

/-- C5 witness: the degraded fallback report carries counters equal to the
lengths of its (empty) lists. -/
theorem report_counters_recomputed_witness :
    pyLen (degradedReport "Connection refused" "test.py").errors =
      some (degradedReport "Connection refused" "test.py").metrics.total_errors ∧
    pyLen (degradedReport "Connection refused" "test.py").warnings =
      some (degradedReport "Connection refused" "test.py").metrics.total_warnings ∧
    pyLen (degradedReport "Connection refused" "test.py").suggestions =
      some (degradedReport "Connection refused" "test.py").metrics.total_suggestions :=
  report_counters_recomputed (fallbackAnalysis "Connection refused") "test.py"
    (degradedReport "Connection refused" "test.py") (generate_report_fallback _ _)

/-- C8: on a structurally valid payload object (whose three finding lists,
when present, are arrays), the report builder never fails and every
missing key is defaulted independently: absent list keys become empty
lists (and zero counters), absent scores become 0, an absent summary
becomes the empty string; in particular a payload missing the errors key
yields an empty errors list. -/

theorem normalize_missing_keys_defaulted (kvs : List (String × Json)) (filename : String)
    (he : ∀ v, lookupLast kvs "errors" = some v → ∃ xs, v = Json.arr xs)
    (hw : ∀ v, lookupLast kvs "warnings" = some v → ∃ xs, v = Json.arr xs)
    (hs : ∀ v, lookupLast kvs "suggestions" = some v → ∃ xs, v = Json.arr xs) :
    ∃ rep, generate_report (Json.obj kvs) filename = some rep ∧
      (lookupLast kvs "errors" = none → rep.errors = Json.arr [] ∧ rep.metrics.total_errors = 0) ∧
      (lookupLast kvs "summary" = none → rep.summary = Json.str "") ∧
      (lookupLast kvs "overall_quality_score" = none → rep.overall_score = Json.num 0) ∧
      (lookupLast kvs "warnings" = none →
        rep.warnings = Json.arr [] ∧ rep.metrics.total_warnings = 0) ∧
      (lookupLast kvs "suggestions" = none →
        rep.suggestions = Json.arr [] ∧ rep.metrics.total_suggestions = 0) ∧
      (lookupLast kvs "strengths" = none → rep.strengths = Json.arr []) ∧
      (lookupLast kvs "readability_score" = none → rep.detailed_scores.readability = Json.num 0) ∧
      (lookupLast kvs "modularity_score" = none → rep.detailed_scores.modularity = Json.num 0) ∧
      (lookupLast kvs "best_practices_score" = none →
        rep.detailed_scores.best_practices = Json.num 0) ∧
      (lookupLast kvs "security_concerns" = none → rep.security_concerns = Json.arr []) ∧
      (lookupLast kvs "performance_notes" = none → rep.performance_notes = Json.arr []) := by
  have key : ∀ k : String, (∀ v, lookupLast kvs k = some v → ∃ xs, v = Json.arr xs) →
      ∃ n, pyLen (jget (Json.obj kvs) k (Json.arr [])) = some n := by
    intro k hk
    cases hl : lookupLast kvs k with
    | none => exact ⟨0, by simp [jget, hl, pyLen]⟩
    | some v =>
      obtain ⟨xs, rfl⟩ := hk v hl
      exact ⟨xs.length, by simp [jget, hl, pyLen]⟩
  obtain ⟨ne, hne⟩ := key "errors" he
  obtain ⟨nw, hnw⟩ := key "warnings" hw
  obtain ⟨ns, hns⟩ := key "suggestions" hs
  refine ⟨{ filename := filename
            overall_score := jget (Json.obj kvs) "overall_quality_score" (Json.num 0)
            summary := jget (Json.obj kvs) "summary" (Json.str "")
            detailed_scores :=
              { readability := jget (Json.obj kvs) "readability_score" (Json.num 0)
                modularity := jget (Json.obj kvs) "modularity_score" (Json.num 0)
                best_practices := jget (Json.obj kvs) "best_practices_score" (Json.num 0) }
            errors := jget (Json.obj kvs) "errors" (Json.arr [])
            warnings := jget (Json.obj kvs) "warnings" (Json.arr [])
            suggestions := jget (Json.obj kvs) "suggestions" (Json.arr [])
            strengths := jget (Json.obj kvs) "strengths" (Json.arr [])
            security_concerns := jget (Json.obj kvs) "security_concerns" (Json.arr [])
            performance_notes := jget (Json.obj kvs) "performance_notes" (Json.arr [])
            metrics := { total_errors := ne, total_warnings := nw, total_suggestions := ns } },
    ?_, ?_, ?_, ?_, ?_, ?_, ?_, ?_, ?_, ?_, ?_, ?_⟩
  · unfold generate_report
    rw [hne, hnw, hns]
  · intro h0
    refine ⟨by simp [jget, h0], ?_⟩
    rw [show jget (Json.obj kvs) "errors" (Json.arr []) = Json.arr [] from by simp [jget, h0]]
      at hne
    simp [pyLen] at hne
    show ne = 0
    omega
  · intro h0
    simp [jget, h0]
  · intro h0
    simp [jget, h0]
  · intro h0
    refine ⟨by simp [jget, h0], ?_⟩
    rw [show jget (Json.obj kvs) "warnings" (Json.arr []) = Json.arr [] from by simp [jget, h0]]
      at hnw
    simp [pyLen] at hnw
    show nw = 0
    omega
  · intro h0
    refine ⟨by simp [jget, h0], ?_⟩
    rw [show jget (Json.obj kvs) "suggestions" (Json.arr []) = Json.arr [] from by simp [jget, h0]]
      at hns
    simp [pyLen] at hns
    show ns = 0
    omega
  · intro h0
    simp [jget, h0]
  · intro h0
    simp [jget, h0]
  · intro h0
    simp [jget, h0]
  · intro h0
    simp [jget, h0]
  · intro h0
    simp [jget, h0]
  · intro h0
    simp [jget, h0]

/-- C8 witness: a payload carrying only a summary builds a report whose
errors list is empty with counter 0 and whose scores default to 0. -/
theorem normalize_missing_keys_defaulted_witness :
    ∃ rep, generate_report (Json.obj [("summary", Json.str "looks reasonable")]) "a.py" =
        some rep ∧
      (lookupLast [("summary", Json.str "looks reasonable")] "errors" = none →
        rep.errors = Json.arr [] ∧ rep.metrics.total_errors = 0) ∧
      (lookupLast [("summary", Json.str "looks reasonable")] "summary" = none →
        rep.summary = Json.str "") ∧
      (lookupLast [("summary", Json.str "looks reasonable")] "overall_quality_score" = none →
        rep.overall_score = Json.num 0) ∧
      (lookupLast [("summary", Json.str "looks reasonable")] "warnings" = none →
        rep.warnings = Json.arr [] ∧ rep.metrics.total_warnings = 0) ∧
      (lookupLast [("summary", Json.str "looks reasonable")] "suggestions" = none →
        rep.suggestions = Json.arr [] ∧ rep.metrics.total_suggestions = 0) ∧
      (lookupLast [("summary", Json.str "looks reasonable")] "strengths" = none →
        rep.strengths = Json.arr []) ∧
      (lookupLast [("summary", Json.str "looks reasonable")] "readability_score" = none →
        rep.detailed_scores.readability = Json.num 0) ∧
      (lookupLast [("summary", Json.str "looks reasonable")] "modularity_score" = none →
        rep.detailed_scores.modularity = Json.num 0) ∧
      (lookupLast [("summary", Json.str "looks reasonable")] "best_practices_score" = none →
        rep.detailed_scores.best_practices = Json.num 0) ∧
      (lookupLast [("summary", Json.str "looks reasonable")] "security_concerns" = none →
        rep.security_concerns = Json.arr []) ∧
      (lookupLast [("summary", Json.str "looks reasonable")] "performance_notes" = none →
        rep.performance_notes = Json.arr []) :=
  normalize_missing_keys_defaulted [("summary", Json.str "looks reasonable")] "a.py"
    (fun _ h => nomatch h) (fun _ h => nomatch h) (fun _ h => nomatch h)

/-- A file whose name fails the extension check is turned into an error
entry by the batch loop body, leaving the database untouched. -/
theorem batch_file_not_allowed (llm : LlmClient) (db : DB) (file : UploadFile)
    (h : allowed_file file.filename = false) :
    batch_process_file llm db file = (Except.error (file.filename, "File type not allowed"), db) := by
  simp [batch_process_file, h]

/-- One unrolling of the batch loop. -/
theorem batch_loop_cons (llm : LlmClient) (db : DB) (x : UploadFile) (t : List UploadFile) :
    batch_loop llm db (x :: t) =
      match (batch_process_file llm db x).1 with
      | Except.ok s =>
        ((s :: (batch_loop llm (batch_process_file llm db x).2 t).1.1,
          (batch_loop llm (batch_process_file llm db x).2 t).1.2),
         (batch_loop llm (batch_process_file llm db x).2 t).2)
      | Except.error e =>
        (((batch_loop llm (batch_process_file llm db x).2 t).1.1,
          e :: (batch_loop llm (batch_process_file llm db x).2 t).1.2),
         (batch_loop llm (batch_process_file llm db x).2 t).2) := rfl

/-- The batch loop over a concatenation is the loop over the first part
followed by the loop over the second part from the resulting database,
with successes and errors concatenated in order. -/
theorem batch_loop_append (llm : LlmClient) (db : DB) (xs ys : List UploadFile) :
    batch_loop llm db (xs ++ ys) =
      (((batch_loop llm db xs).1.1 ++ (batch_loop llm (batch_loop llm db xs).2 ys).1.1,
        (batch_loop llm db xs).1.2 ++ (batch_loop llm (batch_loop llm db xs).2 ys).1.2),
       (batch_loop llm (batch_loop llm db xs).2 ys).2) := by
  induction xs generalizing db with
  | nil => simp [batch_loop]
  | cons x t ih =>
    simp only [List.cons_append]
    rw [batch_loop_cons llm db x (t ++ ys), batch_loop_cons llm db x t]
    rcases hx : (batch_process_file llm db x).1 with e | s <;>
      simp [hx, ih ((batch_process_file llm db x).2)]

/-- An accepted file whose sanitized name keeps no dot: the file-type
rsplit raises inside the try, so the loop body yields the per-file error
entry and leaves the database untouched. -/
theorem batch_file_no_dot (llm : LlmClient) (db : DB) (file : UploadFile)
    (hAllowed : allowed_file file.filename = true)
    (hDot : (secure_filename file.filename).data.contains '.' = false) :
    batch_process_file llm db file = (Except.error (file.filename, "IndexError"), db) := by
  simp only [batch_process_file, hAllowed, if_true, hDot, Bool.not_false, ite_true]

/-- An accepted file whose report build raises: the loop body yields the
per-file error entry and leaves the database untouched. -/
theorem batch_file_report_failure (llm : LlmClient) (db : DB) (file : UploadFile)
    (hAllowed : allowed_file file.filename = true)
    (hDot : (secure_filename file.filename).data.contains '.' = true)
    (hRep : generate_report (analyze_code (llm file.content (secure_filename file.filename)))
      (secure_filename file.filename) = none) :
    batch_process_file llm db file = (Except.error (file.filename, "TypeError"), db) := by
  simp only [batch_process_file, hAllowed, if_true, hDot, Bool.not_true, Bool.false_eq_true,
    if_false, hRep]

/-- Whatever makes the loop body fail on a file — a disallowed extension
or either exception path of the try block — the error entry names that
file and the database is left exactly as it was. -/
theorem batch_process_file_error_frame (llm : LlmClient) (db : DB) (file : UploadFile)
    (err : String × String)
    (h : (batch_process_file llm db file).1 = Except.error err) :
    batch_process_file llm db file = (Except.error err, db) ∧ err.1 = file.filename := by
  by_cases ha : allowed_file file.filename = true
  · by_cases hd : (secure_filename file.filename).data.contains '.' = true
    · rcases hg : generate_report (analyze_code (llm file.content (secure_filename file.filename)))
          (secure_filename file.filename) with _ | rep
      · rw [batch_file_report_failure llm db file ha hd hg] at h ⊢
        injection h with h2
        rw [← h2]
        exact ⟨rfl, rfl⟩
      · rw [batch_file_success llm db file rep ha hd hg] at h
        exact absurd h (by simp)
    · rw [batch_file_no_dot llm db file ha (by simpa using hd)] at h ⊢
      injection h with h2
      rw [← h2]
      exact ⟨rfl, rfl⟩
  · rw [batch_file_not_allowed llm db file (by simpa using ha)] at h ⊢
    injection h with h2
    rw [← h2]
    exact ⟨rfl, rfl⟩

/-- A failing file at the head of the loop adds its one error entry and
changes nothing else. -/
theorem batch_loop_cons_error (llm : LlmClient) (db : DB) (f : UploadFile)
    (post : List UploadFile) (err : String × String)
    (h : (batch_process_file llm db f).1 = Except.error err) :
    batch_loop llm db (f :: post) =
      (((batch_loop llm db post).1.1, err :: (batch_loop llm db post).1.2),
       (batch_loop llm db post).2) := by
  rw [batch_loop_cons, (batch_process_file_error_frame llm db f err h).1]

/-- C7: a file on which the loop body fails — for a disallowed extension
or for any exception thrown while processing it — contributes exactly one
error entry, and that entry names the file; the failure neither aborts
nor alters the processing of the other files: removing the failing file
leaves the success records, the final database and the success count
identical, and the failure count one lower, while the batch call itself
still returns its result. -/
theorem batch_failure_isolated (llm : LlmClient) (db : DB) (pre : List UploadFile)
    (f : UploadFile) (post : List UploadFile) (err : String × String)
    (hf : (batch_process_file llm (batch_loop llm db pre).2 f).1 = Except.error err) :
    err.1 = f.filename ∧
    (batch_review llm db (pre ++ f :: post)).1.results =
      (batch_review llm db (pre ++ post)).1.results ∧
    (batch_review llm db (pre ++ f :: post)).2 = (batch_review llm db (pre ++ post)).2 ∧
    (batch_review llm db (pre ++ f :: post)).1.errors =
      (batch_loop llm db pre).1.2 ++ err ::
        (batch_loop llm (batch_loop llm db pre).2 post).1.2 ∧
    (batch_review llm db (pre ++ f :: post)).1.total =
      (batch_review llm db (pre ++ post)).1.total ∧
    (batch_review llm db (pre ++ f :: post)).1.failed =
      (batch_review llm db (pre ++ post)).1.failed + 1 := by
  have hmain : batch_loop llm db (pre ++ f :: post) =
      (((batch_loop llm db pre).1.1 ++ (batch_loop llm (batch_loop llm db pre).2 post).1.1,
        (batch_loop llm db pre).1.2 ++ err ::
          (batch_loop llm (batch_loop llm db pre).2 post).1.2),
       (batch_loop llm (batch_loop llm db pre).2 post).2) := by
    rw [batch_loop_append, batch_loop_cons_error llm _ f post err hf]
  have hbase := batch_loop_append llm db pre post
  refine ⟨(batch_process_file_error_frame llm _ f err hf).2, ?_, ?_, ?_, ?_, ?_⟩
  · show (batch_loop llm db (pre ++ f :: post)).1.1 = (batch_loop llm db (pre ++ post)).1.1
    rw [hmain, hbase]
  · show (batch_loop llm db (pre ++ f :: post)).2 = (batch_loop llm db (pre ++ post)).2
    rw [hmain, hbase]
  · show (batch_loop llm db (pre ++ f :: post)).1.2 = _
    rw [hmain]
  · show (batch_loop llm db (pre ++ f :: post)).1.1.length =
      (batch_loop llm db (pre ++ post)).1.1.length
    rw [hmain, hbase]
  · show (batch_loop llm db (pre ++ f :: post)).1.2.length =
      (batch_loop llm db (pre ++ post)).1.2.length + 1
    rw [hmain, hbase]
    simp
    omega

/-- C7 witness: two 3-file batches whose middle file fails — once for a
disallowed extension (notes.txt) and once for an exception during its
processing (..py is accepted but sanitizes to a dotless name, raising in
the file-type rsplit): each yields exactly the one error entry naming the
failing file, two successes, and the same success records as the batch
without it. -/
theorem batch_failure_isolated_witness :
    (batch_review llmDown db0
      ([⟨"a.py", "x = 1"⟩] ++ ⟨"notes.txt", "hello"⟩ :: [⟨"b.py", "y = 2"⟩])).1.errors =
      [("notes.txt", "File type not allowed")] ∧
    (batch_review llmDown db0
      ([⟨"a.py", "x = 1"⟩] ++ ⟨"notes.txt", "hello"⟩ :: [⟨"b.py", "y = 2"⟩])).1.total = 2 ∧
    (batch_review llmDown db0
      ([⟨"a.py", "x = 1"⟩] ++ ⟨"notes.txt", "hello"⟩ :: [⟨"b.py", "y = 2"⟩])).1.results =
      (batch_review llmDown db0 ([⟨"a.py", "x = 1"⟩] ++ [⟨"b.py", "y = 2"⟩])).1.results ∧
    allowed_file "..py" = true ∧
    (batch_review llmDown db0
      ([⟨"a.py", "x = 1"⟩] ++ ⟨"..py", "z = 3"⟩ :: [⟨"b.py", "y = 2"⟩])).1.errors =
      [("..py", "IndexError")] ∧
    (batch_review llmDown db0
      ([⟨"a.py", "x = 1"⟩] ++ ⟨"..py", "z = 3"⟩ :: [⟨"b.py", "y = 2"⟩])).1.total = 2 ∧
    (batch_review llmDown db0
      ([⟨"a.py", "x = 1"⟩] ++ ⟨"..py", "z = 3"⟩ :: [⟨"b.py", "y = 2"⟩])).1.results =
      (batch_review llmDown db0 ([⟨"a.py", "x = 1"⟩] ++ [⟨"b.py", "y = 2"⟩])).1.results := by
  have h1 := batch_failure_isolated llmDown db0 [⟨"a.py", "x = 1"⟩] ⟨"notes.txt", "hello"⟩
    [⟨"b.py", "y = 2"⟩] ("notes.txt", "File type not allowed") (by rfl)
  have h2 := batch_failure_isolated llmDown db0 [⟨"a.py", "x = 1"⟩] ⟨"..py", "z = 3"⟩
    [⟨"b.py", "y = 2"⟩] ("..py", "IndexError") (by rfl)
  refine ⟨?_, ?_, h1.2.1, by decide, ?_, ?_, h2.2.1⟩
  · rw [h1.2.2.2.1]
    rfl
  · rw [h1.2.2.2.2.1]
    rfl
  · rw [h2.2.2.2.1]
    rfl
  · rw [h2.2.2.2.2.1]
    rfl

/-- A completion text that is a JSON string literal containing braces: the
greedy brace span inside it is not valid JSON, while the text as a whole
is. -/
def bracedStringRaw : String := "\"\x7b]\x7d\""

/-- The brace span the regex extracts from bracedStringRaw. -/
def bracedStringSpan : String := "\x7b]\x7d"

/-- C2 counterexample: on this completion the regex finds a span, parsing
the span fails, and parsing the whole raw text would succeed (yielding a
JSON string), yet analyze_code returns the zero-score fallback instead of
the whole-text parse: the span failure is absorbed by the except branch,
not retried on the raw text. -/
theorem span_failure_not_retried_cex :
    extractSpan bracedStringRaw = some bracedStringSpan ∧
    json_loads bracedStringSpan = none ∧
    json_loads bracedStringRaw = some (Json.str bracedStringSpan) ∧
    analyze_code (Except.ok bracedStringRaw) = fallbackAnalysis (jsonErrorStr bracedStringSpan) ∧
    analyze_code (Except.ok bracedStringRaw) ≠ Json.str bracedStringSpan :=
  ⟨rfl, rfl, rfl, rfl, fun h => Json.noConfusion h⟩

/-- C2 amended: the whole-text parse is attempted only when the regex finds
no curly-brace span at all; when a span is found, its parse result is
final — success returns it, failure lands in the except branch and yields
the fallback analysis, with no second parse of the raw text. -/
theorem extraction_fallback_order (raw : String) :
    (extractSpan raw = none →
      analyze_code (Except.ok raw) =
        (match json_loads raw with
         | some analysis => analysis
         | none => fallbackAnalysis (jsonErrorStr raw))) ∧
    (∀ span, extractSpan raw = some span →
      analyze_code (Except.ok raw) =
        (match json_loads span with
         | some analysis => analysis
         | none => fallbackAnalysis (jsonErrorStr span))) := by
  have hstep : analyze_code (Except.ok raw) =
      (match extractSpan raw with
       | some span =>
         match json_loads span with
         | some analysis => analysis
         | none => fallbackAnalysis (jsonErrorStr span)
       | none =>
         match json_loads raw with
         | some analysis => analysis
         | none => fallbackAnalysis (jsonErrorStr raw)) := rfl
  constructor
  · intro h
    rw [hstep, h]
  · intro span h
    rw [hstep, h]

/-- C2 witness: a prose completion without braces falls back to parsing
the whole text (which fails, giving the fallback), and the braced-string
completion takes the span branch. -/
theorem extraction_fallback_order_witness :
    analyze_code (Except.ok "no payload here") = fallbackAnalysis (jsonErrorStr "no payload here") ∧
    analyze_code (Except.ok bracedStringRaw) = fallbackAnalysis (jsonErrorStr bracedStringSpan) := by
  constructor
  · rw [(extraction_fallback_order "no payload here").1 (by rfl)]
    rfl
  · rw [(extraction_fallback_order bracedStringRaw).2 bracedStringSpan (by rfl)]
    rfl

/-- C1: when the LLM client raises, the normalizer absorbs the exception
into the fallback analysis, the built report is the degraded one (score
0, all three sub-scores 0, every list empty, summary naming the failure),
and single-file ingestion still completes: the fresh identity is returned
and exactly one corresponding row is persisted. -/
theorem llm_failure_absorbed (e : String) (db : DB) (file : UploadFile)
    (hAllowed : allowed_file file.filename = true)
    (hDot : (secure_filename file.filename).data.contains '.' = true) :
    review_code (fun _ _ => Except.error e) db file =
      (ReviewResponse.ok db.nextId
        { report := degradedReport e (secure_filename file.filename),
          code_metrics := some (calculate_code_metrics file.content),
          language := detect_language (secure_filename file.filename) }
        (calculate_code_metrics file.content) (detect_language (secure_filename file.filename)),
       { nextId := db.nextId + 1,
         rows := db.rows ++ [ingestRow db file (degradedReport e (secure_filename file.filename))
           (some (calculate_code_metrics file.content))] }) ∧
    analyze_code (Except.error e) = fallbackAnalysis e ∧
    (degradedReport e (secure_filename file.filename)).overall_score = Json.num 0 ∧
    (degradedReport e (secure_filename file.filename)).detailed_scores.readability = Json.num 0 ∧
    (degradedReport e (secure_filename file.filename)).detailed_scores.modularity = Json.num 0 ∧
    (degradedReport e (secure_filename file.filename)).detailed_scores.best_practices =
      Json.num 0 ∧
    (degradedReport e (secure_filename file.filename)).errors = Json.arr [] ∧
    (degradedReport e (secure_filename file.filename)).warnings = Json.arr [] ∧
    (degradedReport e (secure_filename file.filename)).suggestions = Json.arr [] ∧
    (degradedReport e (secure_filename file.filename)).strengths = Json.arr [] ∧
    (degradedReport e (secure_filename file.filename)).security_concerns = Json.arr [] ∧
    (degradedReport e (secure_filename file.filename)).performance_notes = Json.arr [] ∧
    (degradedReport e (secure_filename file.filename)).summary =
      Json.str ("Error during analysis: " ++ e) :=
  ⟨review_code_success (fun _ _ => Except.error e) db file
      (degradedReport e (secure_filename file.filename)) hAllowed hDot
      (generate_report_fallback e (secure_filename file.filename)),
   rfl, rfl, rfl, rfl, rfl, rfl, rfl, rfl, rfl, rfl, rfl, rfl⟩

/-- C1 witness: a network failure on test.py still persists one row into
the fresh database and returns identity 1 with the degraded report. -/
theorem llm_failure_absorbed_witness :
    review_code (fun _ _ => Except.error "Connection refused") db0 file0 =
      (ReviewResponse.ok db0.nextId
        { report := degradedReport "Connection refused" (secure_filename file0.filename),
          code_metrics := some (calculate_code_metrics file0.content),
          language := detect_language (secure_filename file0.filename) }
        (calculate_code_metrics file0.content) (detect_language (secure_filename file0.filename)),
       { nextId := db0.nextId + 1,
         rows := db0.rows ++
           [ingestRow db0 file0 (degradedReport "Connection refused" (secure_filename file0.filename))
             (some (calculate_code_metrics file0.content))] }) ∧
    detect_language (secure_filename file0.filename) = "Python" ∧ db0.nextId = 1 :=
  ⟨(llm_failure_absorbed "Connection refused" db0 file0 (by decide) (by decide)).1,
   by decide, rfl⟩

/-- C6 counterexample: running the same accepted file through the batch
endpoint and through single-file ingestion, the single-file row stores the
computed code metrics in its report while the batch row stores none — the
batch variant skips the metrics computation and attachment of step 5. -/
theorem batch_metrics_not_attached_cex :
    (batch_review llmDown db0 [file0]).2.rows.map
        (fun row => row.review_report.code_metrics) = [none] ∧
    (review_code llmDown db0 file0).2.rows.map
        (fun row => row.review_report.code_metrics) =
      [some (calculate_code_metrics file0.content)] :=
  ⟨rfl, rfl⟩

/-- C6 amended: for an accepted file whose report build succeeds, the
batch loop body performs the same steps as single-file ingestion and
persists an identical row — except that code metrics are neither computed
nor attached (the stored report carries none), while the language label
is attached in both. -/
theorem batch_same_except_metrics (llm : LlmClient) (db : DB) (file : UploadFile) (rep : Report)
    (hAllowed : allowed_file file.filename = true)
    (hDot : (secure_filename file.filename).data.contains '.' = true)
    (hRep : generate_report (analyze_code (llm file.content (secure_filename file.filename)))
      (secure_filename file.filename) = some rep) :
    review_code llm db file =
      (ReviewResponse.ok db.nextId
        { report := rep, code_metrics := some (calculate_code_metrics file.content),
          language := detect_language (secure_filename file.filename) }
        (calculate_code_metrics file.content) (detect_language (secure_filename file.filename)),
       { nextId := db.nextId + 1,
         rows := db.rows ++ [ingestRow db file rep (some (calculate_code_metrics file.content))] }) ∧
    batch_process_file llm db file =
      (Except.ok { filename := secure_filename file.filename, review_id := db.nextId,
                   quality_score := rep.overall_score },
       { nextId := db.nextId + 1, rows := db.rows ++ [ingestRow db file rep none] }) :=
  ⟨review_code_success llm db file rep hAllowed hDot hRep,
   batch_file_success llm db file rep hAllowed hDot hRep⟩

/-- C6 amended witness: on test.py with the failing client, the two paths
persist the same row except for the metrics attachment. -/
theorem batch_same_except_metrics_witness :
    review_code llmDown db0 file0 =
      (ReviewResponse.ok db0.nextId
        { report := degradedReport "Connection refused" (secure_filename file0.filename),
          code_metrics := some (calculate_code_metrics file0.content),
          language := detect_language (secure_filename file0.filename) }
        (calculate_code_metrics file0.content) (detect_language (secure_filename file0.filename)),
       { nextId := db0.nextId + 1,
         rows := db0.rows ++
           [ingestRow db0 file0
             (degradedReport "Connection refused" (secure_filename file0.filename))
             (some (calculate_code_metrics file0.content))] }) ∧
    batch_process_file llmDown db0 file0 =
      (Except.ok { filename := secure_filename file0.filename, review_id := db0.nextId,
                   quality_score :=
                     (degradedReport "Connection refused"
                       (secure_filename file0.filename)).overall_score },
       { nextId := db0.nextId + 1,
         rows := db0.rows ++
           [ingestRow db0 file0
             (degradedReport "Connection refused" (secure_filename file0.filename)) none] }) :=
  batch_same_except_metrics llmDown db0 file0
    (degradedReport "Connection refused" (secure_filename file0.filename))
    (by decide) (by decide) (by rfl)

/-- C4 witness: the partition at the comment line of the sample snippet,
and the count equation on the snippet itself. -/
theorem metrics_line_partition_witness :
    ((isBlankLine "# comment" = true ∧ isCommentLine "# comment" = false ∧
        isCodeLine "# comment" = false) ∨
      (isBlankLine "# comment" = false ∧ isCommentLine "# comment" = true ∧
        isCodeLine "# comment" = false) ∨
      (isBlankLine "# comment" = false ∧ isCommentLine "# comment" = false ∧
        isCodeLine "# comment" = true)) ∧
    (calculate_code_metrics sampleSnippet).total_lines =
      (calculate_code_metrics sampleSnippet).code_lines +
        (calculate_code_metrics sampleSnippet).blank_lines +
        (calculate_code_metrics sampleSnippet).comment_lines :=
  ⟨(metrics_line_partition sampleSnippet).1 "# comment" (by decide),
   (metrics_line_partition sampleSnippet).2⟩
